import Mathlib

/-!
Shallow embedding of the hipSOLVER API surface (hipsolver.h) and of the
Solver Call Protocol it declares: status codes, mode enumerations, the
complex-value struct layouts, the session-handle lifecycle, and the
two-phase (workspace query / execute) routine convention, together with
exact-arithmetic models of the LU (getrf) and Cholesky (potrf) routines
that the header declares and the sample program exercises.

The repository under verification is a header of prototypes plus a sample;
the enum values, struct layouts and static assertions are embedded directly
from the header, while routine behaviour (dispatch, status translation,
workspace queries, factorization semantics) is modelled from the spec, as
the header only declares it.
-/

namespace Hipsolver

/-- The status-code enumeration, embedded from `hipsolverStatus_t` in
hipsolver.h (lines 150-164): exactly twelve constructors. -/
inductive Status where
  | SUCCESS
  | NOT_INITIALIZED
  | ALLOC_FAILED
  | INVALID_VALUE
  | MAPPING_ERROR
  | EXECUTION_FAILED
  | INTERNAL_ERROR
  | NOT_SUPPORTED
  | ARCH_MISMATCH
  | HANDLE_IS_NULLPTR
  | INVALID_ENUM
  | UNKNOWN
  deriving DecidableEq, Repr

/-- The numeric value of each status code, embedded from the enumerator
values 0..11 in hipsolver.h. -/
def Status.val : Status → Nat
  | .SUCCESS => 0
  | .NOT_INITIALIZED => 1
  | .ALLOC_FAILED => 2
  | .INVALID_VALUE => 3
  | .MAPPING_ERROR => 4
  | .EXECUTION_FAILED => 5
  | .INTERNAL_ERROR => 6
  | .NOT_SUPPORTED => 7
  | .ARCH_MISMATCH => 8
  | .HANDLE_IS_NULLPTR => 9
  | .INVALID_ENUM => 10
  | .UNKNOWN => 11

/-- The complete list of status codes, in declaration order. -/
def allStatuses : List Status :=
  [.SUCCESS, .NOT_INITIALIZED, .ALLOC_FAILED, .INVALID_VALUE, .MAPPING_ERROR,
   .EXECUTION_FAILED, .INTERNAL_ERROR, .NOT_SUPPORTED, .ARCH_MISMATCH,
   .HANDLE_IS_NULLPTR, .INVALID_ENUM, .UNKNOWN]

/-- Modelled from the spec: the status translation layer (not present in
src/, which only declares the enum).  The dispatched backend reports a raw
integer code; a known mapping (an association list from raw backend codes
to hipsolver statuses) translates it, and `HIPSOLVER_STATUS_UNKNOWN` is the
mandatory fallback for any backend code outside the known mapping, so that
no backend-specific code is ever propagated verbatim. -/
def translateBackendStatus (known : List (Int × Status)) (b : Int) : Status :=
  (known.lookup b).getD Status.UNKNOWN

/-- The transpose-operation enumeration, embedded from
`hipsolverOperation_t` in hipsolver.h (lines 167-172). -/
inductive Operation where
  | OP_N
  | OP_T
  | OP_C
  deriving DecidableEq, Repr

/-- Numeric values of `hipsolverOperation_t`, from hipsolver.h. -/
def Operation.val : Operation → Nat
  | .OP_N => 111
  | .OP_T => 112
  | .OP_C => 113

/-- The triangular fill-mode enumeration, embedded from
`hipsolverFillMode_t` in hipsolver.h (lines 174-178). -/
inductive FillMode where
  | UPPER
  | LOWER
  deriving DecidableEq, Repr

/-- Numeric values of `hipsolverFillMode_t`, from hipsolver.h. -/
def FillMode.val : FillMode → Nat
  | .UPPER => 121
  | .LOWER => 122

/-- The side-mode enumeration, embedded from `hipsolverSideMode_t` in
hipsolver.h (lines 180-184). -/
inductive SideMode where
  | LEFT
  | RIGHT
  deriving DecidableEq, Repr

/-- Numeric values of `hipsolverSideMode_t`, from hipsolver.h. -/
def SideMode.val : SideMode → Nat
  | .LEFT => 141
  | .RIGHT => 142

/-- The eigenvector-mode enumeration, embedded from `hipsolverEigMode_t`
in hipsolver.h (lines 186-190). -/
inductive EigMode where
  | NOVECTOR
  | VECTOR
  deriving DecidableEq, Repr

/-- Numeric values of `hipsolverEigMode_t`, from hipsolver.h. -/
def EigMode.val : EigMode → Nat
  | .NOVECTOR => 201
  | .VECTOR => 202

/-- The generalized-eigenproblem-type enumeration, embedded from
`hipsolverEigType_t` in hipsolver.h (lines 192-197). -/
inductive EigType where
  | TYPE_1
  | TYPE_2
  | TYPE_3
  deriving DecidableEq, Repr

/-- Numeric values of `hipsolverEigType_t`, from hipsolver.h. -/
def EigType.val : EigType → Nat
  | .TYPE_1 => 211
  | .TYPE_2 => 212
  | .TYPE_3 => 213

/-! ## C struct layout model for the complex value types

hipsolver.h defines `hipsolverComplex` as a struct with two `float`
members `x, y` (both private in the C++ branch), a defaulted default
constructor and no virtual members, and `hipsolverDoubleComplex`
identically with two `double` members.  The header's own static
assertions (lines 135-147) require standard layout, triviality, and
`sizeof` equal to twice the scalar size.  We model the C/C++ layout rules
(offset alignment, trailing padding) explicitly so that padding-freedom
and the size equations are theorems, not stipulations. -/

/-- The scalar member types occurring in the two complex structs. -/
inductive CScalarTy where
  | cFloat
  | cDouble
  deriving DecidableEq, Repr

/-- Byte size of each scalar type on the LP64 targets hipsolver supports:
`float` is 4 bytes, `double` is 8 bytes. -/
def CScalarTy.byteSize : CScalarTy → Nat
  | .cFloat => 4
  | .cDouble => 8

/-- Alignment requirement of each scalar type (equal to its size on the
supported targets). -/
def CScalarTy.byteAlign : CScalarTy → Nat
  | .cFloat => 4
  | .cDouble => 8

/-- Description of a C++ class with only scalar non-static data members,
recording the facts the standard-layout and triviality traits depend on. -/
structure CppClassDesc where
  fields : List CScalarTy
  fieldsSameAccess : Bool
  hasVirtualMembers : Bool
  hasBaseClasses : Bool
  defaultCtorDefaulted : Bool
  copyOpsImplicit : Bool
  dtorImplicit : Bool
  deriving DecidableEq, Repr

/-- Round `off` up to the next multiple of alignment `a`. -/
def alignUp (off a : Nat) : Nat :=
  if a = 0 then off else ((off + a - 1) / a) * a

/-- End offset after laying out the members in order with C alignment
rules, starting from offset `off`. -/
def layoutEnd (fs : List CScalarTy) (off : Nat) : Nat :=
  match fs with
  | [] => off
  | f :: rest => layoutEnd rest (alignUp off f.byteAlign + f.byteSize)

/-- The strictest member alignment, which the whole struct must satisfy. -/
def maxAlign (fs : List CScalarTy) : Nat :=
  fs.foldl (fun a f => max a f.byteAlign) 1

/-- `sizeof` the described struct: member layout end, rounded up to the
struct alignment (trailing padding). -/
def sizeofDesc (c : CppClassDesc) : Nat :=
  alignUp (layoutEnd c.fields 0) (maxAlign c.fields)

/-- A struct has no padding when its size is exactly the sum of its
members' sizes. -/
def hasNoPadding (c : CppClassDesc) : Bool :=
  sizeofDesc c = (c.fields.map CScalarTy.byteSize).sum

/-- Standard-layout for this fragment: all non-static data members have
the same access control, and there are no virtual members or bases. -/
def isStandardLayoutDesc (c : CppClassDesc) : Bool :=
  c.fieldsSameAccess && !c.hasVirtualMembers && !c.hasBaseClasses

/-- Triviality for this fragment: the default constructor is defaulted
(hence trivial), the copy/move operations and destructor are the implicit
ones, and nothing is virtual. -/
def isTrivialDesc (c : CppClassDesc) : Bool :=
  c.defaultCtorDefaulted && c.copyOpsImplicit && c.dtorImplicit
    && !c.hasVirtualMembers && !c.hasBaseClasses

/-- `hipsolverComplex`, from hipsolver.h lines 44-86: two private `float`
members x, y; `hipsolverComplex() = default`; no virtual members, no
bases, implicit copy operations and destructor. -/
def hipsolverComplex : CppClassDesc :=
  { fields := [.cFloat, .cFloat]
    fieldsSameAccess := true
    hasVirtualMembers := false
    hasBaseClasses := false
    defaultCtorDefaulted := true
    copyOpsImplicit := true
    dtorImplicit := true }

/-- `hipsolverDoubleComplex`, from hipsolver.h lines 88-131: two private
`double` members x, y; defaulted default constructor; no virtual members,
no bases, implicit copy operations and destructor. -/
def hipsolverDoubleComplex : CppClassDesc :=
  { fields := [.cDouble, .cDouble]
    fieldsSameAccess := true
    hasVirtualMembers := false
    hasBaseClasses := false
    defaultCtorDefaulted := true
    copyOpsImplicit := true
    dtorImplicit := true }

/-! ## Session handle lifecycle model -/

/-- Modelled from the spec: the handle table behind `hipsolverCreate`,
`hipsolverDestroy`, `hipsolverSetStream` and `hipsolverGetStream` (src/
contains only the prototypes, hipsolver.h lines 203-211).  A handle is an
opaque pointer; we model a pointer as `Option Nat` (`none` is a null
pointer) and the process state as the set of live handle identifiers with
their bound stream. -/
structure SolverWorld where
  live : List Nat
  boundStream : Nat → Nat
  nextId : Nat

/-- A handle is usable exactly when it is non-null and designates a
created, not-yet-destroyed session. -/
def handleValid (w : SolverWorld) (h : Option Nat) : Bool :=
  match h with
  | none => false
  | some i => w.live.contains i

/-- Modelled from the spec: `hipsolverCreate` allocates a fresh opaque
handle, binds the default queue (stream 0), and reports success. -/
def hipsolverCreate (w : SolverWorld) : SolverWorld × Option Nat × Status :=
  ({ live := w.nextId :: w.live
     boundStream := fun i => if i = w.nextId then 0 else w.boundStream i
     nextId := w.nextId + 1 },
   some w.nextId, Status.SUCCESS)

/-- Modelled from the spec: `hipsolverDestroy` releases a live handle;
with a null or unknown handle it fails with the null-handle status. -/
def hipsolverDestroy (w : SolverWorld) (h : Option Nat) : SolverWorld × Status :=
  match h with
  | none => (w, Status.HANDLE_IS_NULLPTR)
  | some i =>
    if w.live.contains i then
      ({ w with live := w.live.filter (fun j => j ≠ i) }, Status.SUCCESS)
    else
      (w, Status.HANDLE_IS_NULLPTR)

/-- Modelled from the spec: `hipsolverSetStream` rebinds the execution
queue of a live handle; with a null, foreign or destroyed handle it fails
with the null-handle status rather than crashing. -/
def hipsolverSetStream (w : SolverWorld) (h : Option Nat) (streamId : Nat) :
    SolverWorld × Status :=
  match h with
  | none => (w, Status.HANDLE_IS_NULLPTR)
  | some i =>
    if w.live.contains i then
      ({ w with boundStream := fun j => if j = i then streamId else w.boundStream j },
       Status.SUCCESS)
    else
      (w, Status.HANDLE_IS_NULLPTR)

/-! ## Two-phase routine models: query phase -/

/-- Modelled from the spec: `hipsolverDgetrf_bufferSize` (declared at
hipsolver.h lines 881-882).  The backend's workspace-size formula is not
in this repository, so it enters as a parameter `backendSize`, a function
of the configuration (m, n, lda) only; the data buffer `A` is accepted,
as in the prototype, but the query is a pure function of the
configuration and must not read the buffer contents.  The result is the
status and the element count written to lwork. -/
def hipsolverDgetrf_bufferSize (backendSize : Nat → Nat → Nat → Nat)
    (m n : Nat) (A : List (List ℚ)) (lda : Nat) : Status × Nat :=
  (Status.SUCCESS, backendSize m n lda)

/-- Modelled from the spec: `hipsolverSpotrf_bufferSize` (declared at
hipsolver.h lines 1028-1029), with the fill-mode taken as the raw integer
an out-of-range caller can pass.  `lworkBefore` is the prior content of
the lwork slot: on the invalid-enum path no workspace size is stored, so
the slot is returned unchanged. -/
def hipsolverSpotrf_bufferSize (backendSize : Nat → Nat) (uplo : Int)
    (n : Nat) (A : List (List ℚ)) (lda : Nat) (lworkBefore : Int) :
    Status × Int :=
  if uplo = 121 ∨ uplo = 122 then
    (Status.SUCCESS, Int.ofNat (backendSize n))
  else
    (Status.INVALID_ENUM, lworkBefore)

/-! ## Exact-arithmetic factorization models (execute phase)

The execute-phase routines are declared, not implemented, in this
repository; the models below follow the spec's description of their
observable behaviour (LAPACK-style in-place factors, pivot sequence and
completion slot), over exact rational matrices given as lists of rows. -/

/-- A dense matrix as a list of rows of rationals. -/
abbrev Mat := List (List ℚ)

/-- Entry (i, j) of a matrix, defaulting to 0 outside the stored data. -/
def entry (A : Mat) (i j : Nat) : ℚ :=
  (A.getD i []).getD j 0

/-- Replace entry (i, j) of a matrix. -/
def setEntry (A : Mat) (i j : Nat) (v : ℚ) : Mat :=
  A.set i ((A.getD i []).set j v)

/-- Swap rows i and j of a matrix. -/
def swapRows (A : Mat) (i j : Nat) : Mat :=
  let ri := A.getD i []
  let rj := A.getD j []
  (A.set i rj).set j ri

/-- Absolute value of a rational, written out so that concrete runs of
the models reduce inside the kernel. -/
def absQ (q : ℚ) : ℚ :=
  if q < 0 then -q else q

/-- Partial-pivoting search: the first row index p in [k, m) whose entry
in column k has maximal absolute value (LAPACK's idamax convention). -/
def pivotSearch (A : Mat) (m k : Nat) : Nat :=
  match (List.range m).drop k with
  | [] => k
  | i0 :: rest =>
    rest.foldl (fun best i => if absQ (entry A best k) < absQ (entry A i k) then i else best) i0

/-- One Gaussian-elimination step at pivot position k: if the pivot is
nonzero, store the multipliers in column k below the diagonal and update
the trailing submatrix; if the pivot is zero, leave the matrix unchanged
(LAPACK skips the scaling). -/
def elimStep (m n : Nat) (A : Mat) (k : Nat) : Mat :=
  let piv := entry A k k
  if piv = 0 then A
  else
    (List.range m).foldl
      (fun B i =>
        if i ≤ k then B
        else
          let l := entry B i k / piv
          let B1 := setEntry B i k l
          (List.range n).foldl
            (fun C j =>
              if j ≤ k then C
              else setEntry C i j (entry C i j - l * entry B1 k j))
            B1)
      A

/-- The getrf main loop: at step k it searches the pivot, swaps, records
the 1-based pivot row, records in `info` the 1-based index of the first
zero pivot (first singular diagonal of U), eliminates, and recurses on
the remaining steps. -/
def getrfGo (m n : Nat) (A : Mat) (k : Nat) : Nat → List Nat → Int → Mat × List Nat × Int
  | 0, ipiv, info => (A, ipiv, info)
  | steps + 1, ipiv, info =>
    let p := pivotSearch A m k
    let A1 := swapRows A k p
    let piv := entry A1 k k
    let info1 := if piv = 0 ∧ info = 0 then ((k : Int) + 1) else info
    let A2 := elimStep m n A1 k
    getrfGo m n A2 (k + 1) steps (ipiv ++ [p + 1]) info1

/-- Modelled from the spec: `hipsolverDgetrf` (declared at hipsolver.h
lines 900-908).  Enqueues the LU factorization with partial pivoting of
the m-by-n matrix A; the in-place factors, the 1-based pivot sequence
written to devIpiv, and the completion value written to devInfo are
returned alongside the synchronous protocol status.  A numerical failure
(zero pivot column, i.e. a singular U diagonal) is reported only through
devInfo; the call itself reports success for having run to completion. -/
def hipsolverDgetrf (m n : Nat) (A : Mat) : Status × Mat × List Nat × Int :=
  (Status.SUCCESS, getrfGo m n A 0 (min m n) [] 0)

/-- The unit-lower-triangular factor held in the strictly lower part of
the in-place getrf output (diagonal ones). -/
def lowerFactor (m : Nat) (LU : Mat) : Mat :=
  (List.range m).map fun i =>
    (List.range m).map fun j =>
      if i = j then 1 else if j < i then entry LU i j else 0

/-- The upper-triangular factor held in the upper part of the in-place
getrf output. -/
def upperFactor (m n : Nat) (LU : Mat) : Mat :=
  (List.range m).map fun i =>
    (List.range n).map fun j =>
      if i ≤ j then entry LU i j else 0

/-- Matrix product of an m-by-p and a p-by-n matrix of rationals. -/
def matMul (m p n : Nat) (A B : Mat) : Mat :=
  (List.range m).map fun i =>
    (List.range n).map fun j =>
      ((List.range p).map fun k => entry A i k * entry B k j).sum

/-- Apply the row interchanges of a 1-based LAPACK pivot sequence to a
matrix, in order: step k swaps row k with row ipiv[k] - 1. -/
def applyIpiv (ipiv : List Nat) (A : Mat) : Mat :=
  (List.range ipiv.length).foldl (fun B k => swapRows B k (ipiv.getD k (k + 1) - 1)) A

/-- The symmetric-elimination loop behind the potrf model: at step k the
pivot is the current diagonal entry; if it is not positive the loop stops
and reports the 1-based order of the offending (first non-positive-
definite) leading minor, otherwise it eliminates and continues. -/
def potrfGo (n : Nat) (A : Mat) (k : Nat) : Nat → Mat × Int
  | 0 => (A, 0)
  | steps + 1 =>
    let d := entry A k k
    if d ≤ 0 then (A, (k : Int) + 1)
    else
      let A1 := elimStep n n A k
      potrfGo n A1 (k + 1) steps

/-- Modelled from the spec: `hipsolverDpotrf` (declared at hipsolver.h
lines 1057-1064).  Enqueues the Cholesky factorization of the n-by-n
matrix A under a fill-mode; a fill-mode outside the enumeration is a
protocol error (invalid enum), while a non-positive-definite input is
reported only through the devInfo completion value (the 1-based order of
the first non-positive-definite leading minor), the call itself reporting
success. -/
def hipsolverDpotrf (uplo : Int) (n : Nat) (A : Mat) : Status × Mat × Int :=
  if uplo = 121 ∨ uplo = 122 then
    (Status.SUCCESS, potrfGo n A 0 n)
  else
    (Status.INVALID_ENUM, A, 0)

/-- The devInfo completion value the potrf model computes for one matrix. -/
def potrfInfo (n : Nat) (A : Mat) : Int :=
  (potrfGo n A 0 n).2

/-- Modelled from the spec: `hipsolverSpotrfBatched` (declared at
hipsolver.h lines 1117-1125).  One call factors batch_count same-shaped
matrices; each batch element is processed independently, the devInfo
array receives one completion value per element, and the call reports
protocol success whatever the per-element numerical outcomes are. -/
def hipsolverSpotrfBatched (uplo : Int) (n : Nat) (As : List Mat) :
    Status × List Mat × List Int :=
  if uplo = 121 ∨ uplo = 122 then
    (Status.SUCCESS,
     As.map (fun A => (potrfGo n A 0 n).1),
     As.map (fun A => (potrfGo n A 0 n).2))
  else
    (Status.INVALID_ENUM, As, [])

/-- The 3-by-3 example matrix of the sample program
(src/clients/samples/example_basic.cpp, get_example_matrix). -/
def exampleMatrix : Mat :=
  [[12, -51, 4], [6, 167, -68], [-4, 24, -41]]

end Hipsolver

namespace Hipsolver

/-- C8: The mode enumerations carry the fixed cblas-compatible integer
values: operation is 111/112/113, fill-mode 121/122, side 141/142,
eigen-mode 201/202, eigen-type 211/212/213. -/
theorem mode_enums_have_cblas_values :
    Operation.val .OP_N = 111 ∧ Operation.val .OP_T = 112 ∧
    Operation.val .OP_C = 113 ∧
    FillMode.val .UPPER = 121 ∧ FillMode.val .LOWER = 122 ∧
    SideMode.val .LEFT = 141 ∧ SideMode.val .RIGHT = 142 ∧
    EigMode.val .NOVECTOR = 201 ∧ EigMode.val .VECTOR = 202 ∧
    EigType.val .TYPE_1 = 211 ∧ EigType.val .TYPE_2 = 212 ∧
    EigType.val .TYPE_3 = 213 := by
  decide

/-- C7: Both complex value types are two-field records of one scalar type,
laid out with no padding, satisfying the standard-layout and triviality
descriptions, with size exactly twice the underlying scalar:
sizeof(hipsolverComplex) = 2 * sizeof(float) and
sizeof(hipsolverDoubleComplex) = 2 * sizeof(double). -/
theorem complex_types_layout :
    hipsolverComplex.fields = [CScalarTy.cFloat, CScalarTy.cFloat] ∧
    hipsolverDoubleComplex.fields = [CScalarTy.cDouble, CScalarTy.cDouble] ∧
    hasNoPadding hipsolverComplex = true ∧
    hasNoPadding hipsolverDoubleComplex = true ∧
    isStandardLayoutDesc hipsolverComplex = true ∧
    isStandardLayoutDesc hipsolverDoubleComplex = true ∧
    isTrivialDesc hipsolverComplex = true ∧
    isTrivialDesc hipsolverDoubleComplex = true ∧
    sizeofDesc hipsolverComplex = 2 * CScalarTy.byteSize .cFloat ∧
    sizeofDesc hipsolverDoubleComplex = 2 * CScalarTy.byteSize .cDouble := by
  decide

/-- C10: The double-precision complex type is exactly twice the size of
the single-precision one, the cross-type relation asserted by the header's
static_assert (hipsolver.h line 146). -/
theorem doubleComplex_size_twice_complex :
    sizeofDesc hipsolverDoubleComplex = 2 * sizeofDesc hipsolverComplex := by
  decide

/-- C1: The status vocabulary is the fixed closed twelve-member
enumeration, and translating any backend status outside the known mapping
yields `HIPSOLVER_STATUS_UNKNOWN`, never the backend-specific code
verbatim. -/
theorem status_vocabulary_closed_and_unknown_fallback
    (known : List (Int × Status)) (b : Int)
    (h : known.lookup b = none) :
    allStatuses.length = 12 ∧ allStatuses.Nodup ∧
    (∀ s : Status, s ∈ allStatuses) ∧
    translateBackendStatus known b = Status.UNKNOWN := by
  refine ⟨by decide, by decide, fun s => by cases s <;> decide, ?_⟩
  simp [translateBackendStatus, h]

/-- Witness for C1: a concrete one-entry known mapping and the backend
code 42 outside it, translated to UNKNOWN. -/
theorem status_vocabulary_closed_and_unknown_fallback_witness :
    ([((0 : Int), Status.SUCCESS)].lookup (42 : Int) = none) ∧
    (allStatuses.length = 12 ∧ allStatuses.Nodup ∧
     (∀ s : Status, s ∈ allStatuses) ∧
     translateBackendStatus [((0 : Int), Status.SUCCESS)] 42 = Status.UNKNOWN) :=
  ⟨by decide,
   status_vocabulary_closed_and_unknown_fallback [((0 : Int), Status.SUCCESS)] 42
     (by decide)⟩

/-- Filtering out an element leaves a list it is no longer a member of. -/
theorem not_mem_filter_ne (l : List Nat) (i : Nat) :
    i ∉ l.filter (fun j => j ≠ i) := by
  simp

/-- C5: A call issued with a null handle, and a call issued with a handle
that has been destroyed, both fail with `HIPSOLVER_STATUS_HANDLE_IS_NULLPTR`
rather than producing an undefined success. -/
theorem null_or_destroyed_handle_yields_handle_is_nullptr
    (w : SolverWorld) (i streamId : Nat) :
    (hipsolverSetStream w none streamId).2 = Status.HANDLE_IS_NULLPTR ∧
    (hipsolverDestroy w none).2 = Status.HANDLE_IS_NULLPTR ∧
    (hipsolverSetStream (hipsolverDestroy w (some i)).1 (some i) streamId).2
      = Status.HANDLE_IS_NULLPTR := by
  refine ⟨rfl, rfl, ?_⟩
  by_cases hi : i ∈ w.live
  · simp [hipsolverDestroy, hipsolverSetStream, hi, not_mem_filter_ne]
  · simp [hipsolverDestroy, hipsolverSetStream, hi]

/-- C3: The workspace query is a pure function of the configuration: for
any backend size formula and any two buffer contents, the status and the
lwork written are identical, and repeating the identical call repeats the
identical result. -/
theorem bufferSize_pure_function_of_configuration
    (backendSize : Nat → Nat → Nat → Nat) (m n lda : Nat)
    (A A' : List (List ℚ)) :
    hipsolverDgetrf_bufferSize backendSize m n A lda
      = hipsolverDgetrf_bufferSize backendSize m n A' lda ∧
    hipsolverDgetrf_bufferSize backendSize m n A lda
      = hipsolverDgetrf_bufferSize backendSize m n A lda :=
  ⟨rfl, rfl⟩

/-- C6: Passing a fill-mode outside the enumeration to the Cholesky query
phase returns `HIPSOLVER_STATUS_INVALID_ENUM` and leaves the lwork slot
unwritten (the slot keeps its prior content). -/
theorem out_of_range_fillmode_query_invalid_enum
    (backendSize : Nat → Nat) (uplo : Int) (n : Nat) (A : List (List ℚ))
    (lda : Nat) (lworkBefore : Int)
    (h1 : uplo ≠ 121) (h2 : uplo ≠ 122) :
    hipsolverSpotrf_bufferSize backendSize uplo n A lda lworkBefore
      = (Status.INVALID_ENUM, lworkBefore) := by
  unfold hipsolverSpotrf_bufferSize
  rw [if_neg]
  rintro (h | h)
  · exact h1 h
  · exact h2 h

/-- Witness for C6: fill-mode 999 is outside the enumeration; the query
returns INVALID_ENUM and the lwork slot keeps its prior content -7. -/
theorem out_of_range_fillmode_query_invalid_enum_witness :
    ((999 : Int) ≠ 121) ∧ ((999 : Int) ≠ 122) ∧
    hipsolverSpotrf_bufferSize (fun _ => 0) 999 2 [] 2 (-7)
      = (Status.INVALID_ENUM, -7) :=
  ⟨by decide, by decide,
   out_of_range_fillmode_query_invalid_enum (fun _ => 0) 999 2 [] 2 (-7)
     (by decide) (by decide)⟩

/-- C2: On any input where the factorization fails numerically (the
devInfo completion value is nonzero: a singular pivot for getrf, a
non-positive-definite leading minor for potrf with a valid fill-mode),
the execute call still returns `HIPSOLVER_STATUS_SUCCESS`; the numerical
verdict is carried only by the devInfo value, never by the status code. -/
theorem numerical_failure_reported_only_in_devinfo
    (m n : Nat) (A : Mat) (uplo : Int) (nB : Nat) (B : Mat)
    (hu : uplo = 121 ∨ uplo = 122)
    (hA : (hipsolverDgetrf m n A).2.2.2 ≠ 0)
    (hB : potrfInfo nB B ≠ 0) :
    (hipsolverDgetrf m n A).1 = Status.SUCCESS ∧
    (hipsolverDpotrf uplo nB B).1 = Status.SUCCESS ∧
    (hipsolverDpotrf uplo nB B).2.2 = potrfInfo nB B := by
  unfold hipsolverDpotrf
  rw [if_pos hu]
  exact ⟨rfl, rfl, rfl⟩

/-- Witness for C2: the 2-by-2 zero matrix is singular and not positive
definite (both completion values are 1), yet both execute calls return
SUCCESS. -/
theorem numerical_failure_reported_only_in_devinfo_witness :
    ((122 : Int) = 121 ∨ (122 : Int) = 122) ∧
    (hipsolverDgetrf 2 2 [[0, 0], [0, 0]]).2.2.2 ≠ 0 ∧
    potrfInfo 2 [[0, 0], [0, 0]] ≠ 0 ∧
    ((hipsolverDgetrf 2 2 [[0, 0], [0, 0]]).1 = Status.SUCCESS ∧
     (hipsolverDpotrf 122 2 [[0, 0], [0, 0]]).1 = Status.SUCCESS ∧
     (hipsolverDpotrf 122 2 [[0, 0], [0, 0]]).2.2 = potrfInfo 2 [[0, 0], [0, 0]]) :=
  ⟨by decide, by with_unfolding_all decide, by with_unfolding_all decide,
   numerical_failure_reported_only_in_devinfo 2 2 [[0, 0], [0, 0]] 122 2 [[0, 0], [0, 0]]
     (by decide) (by with_unfolding_all decide) (by with_unfolding_all decide)⟩

/-- Mapping then indexing with a default: for an in-range index the
default is irrelevant and getD commutes with the map. -/
theorem getD_map_lt {α β : Type _} (f : α → β) (l : List α) (i : Nat) (d : β) (e : α)
    (hi : i < l.length) :
    (l.map f).getD i d = f (l.getD i e) := by
  induction l generalizing i with
  | nil => exact absurd hi (by simp)
  | cons a t ih =>
    cases i with
    | zero => rfl
    | succ k =>
      simp only [List.map_cons, List.getD_cons_succ]
      exact ih k (Nat.lt_of_succ_lt_succ hi)

/-- C4: A batched Cholesky call over a batch in which exactly one element
(index j) is not positive definite returns protocol SUCCESS; after
synchronization the completion slot at j holds a non-zero leading-minor
index, every other slot holds 0, and every element's output factor is the
same as an unbatched run on that element alone (the failing element does
not prevent the others from completing). -/
theorem batched_potrf_isolates_failing_element
    (uplo : Int) (n : Nat) (As : List Mat) (j : Nat)
    (hu : uplo = 121 ∨ uplo = 122)
    (hj : j < As.length)
    (hfail : potrfInfo n (As.getD j []) ≠ 0)
    (hok : ∀ i, i < As.length → i ≠ j → potrfInfo n (As.getD i []) = 0) :
    (hipsolverSpotrfBatched uplo n As).1 = Status.SUCCESS ∧
    ((hipsolverSpotrfBatched uplo n As).2.2).getD j 0 ≠ 0 ∧
    (∀ i, i < As.length → i ≠ j →
      ((hipsolverSpotrfBatched uplo n As).2.2).getD i 1 = 0) ∧
    (∀ i, i < As.length →
      ((hipsolverSpotrfBatched uplo n As).2.1).getD i []
        = (potrfGo n (As.getD i []) 0 n).1) := by
  unfold hipsolverSpotrfBatched
  rw [if_pos hu]
  refine ⟨rfl, ?_, ?_, ?_⟩
  · rw [getD_map_lt _ As j 0 [] hj]
    exact hfail
  · intro i hi hne
    rw [getD_map_lt _ As i 1 [] hi]
    exact hok i hi hne
  · intro i hi
    rw [getD_map_lt _ As i [] [] hi]

/-- Witness for C4: a batch of three 2-by-2 matrices of which only the
middle one (the zero matrix) is not positive definite; the call reports
SUCCESS, the middle slot is 1, the other slots are 0, and each output
factor equals the unbatched run. -/
theorem batched_potrf_isolates_failing_element_witness :
    ((122 : Int) = 121 ∨ (122 : Int) = 122) ∧
    (1 < ([[[1, 0], [0, 1]], [[0, 0], [0, 0]], [[2, 1], [1, 2]]] : List Mat).length) ∧
    potrfInfo 2 (([[[1, 0], [0, 1]], [[0, 0], [0, 0]], [[2, 1], [1, 2]]] : List Mat).getD 1 []) ≠ 0 ∧
    (∀ i, i < ([[[1, 0], [0, 1]], [[0, 0], [0, 0]], [[2, 1], [1, 2]]] : List Mat).length → i ≠ 1 →
      potrfInfo 2 (([[[1, 0], [0, 1]], [[0, 0], [0, 0]], [[2, 1], [1, 2]]] : List Mat).getD i []) = 0) ∧
    ((hipsolverSpotrfBatched 122 2 [[[1, 0], [0, 1]], [[0, 0], [0, 0]], [[2, 1], [1, 2]]]).1 = Status.SUCCESS ∧
     ((hipsolverSpotrfBatched 122 2 [[[1, 0], [0, 1]], [[0, 0], [0, 0]], [[2, 1], [1, 2]]]).2.2).getD 1 0 ≠ 0 ∧
     (∀ i, i < ([[[1, 0], [0, 1]], [[0, 0], [0, 0]], [[2, 1], [1, 2]]] : List Mat).length → i ≠ 1 →
       ((hipsolverSpotrfBatched 122 2 [[[1, 0], [0, 1]], [[0, 0], [0, 0]], [[2, 1], [1, 2]]]).2.2).getD i 1 = 0) ∧
     (∀ i, i < ([[[1, 0], [0, 1]], [[0, 0], [0, 0]], [[2, 1], [1, 2]]] : List Mat).length →
       ((hipsolverSpotrfBatched 122 2 [[[1, 0], [0, 1]], [[0, 0], [0, 0]], [[2, 1], [1, 2]]]).2.1).getD i []
         = (potrfGo 2 (([[[1, 0], [0, 1]], [[0, 0], [0, 0]], [[2, 1], [1, 2]]] : List Mat).getD i []) 0 2).1)) :=
  ⟨by decide, by decide, by with_unfolding_all decide, by with_unfolding_all decide,
   batched_potrf_isolates_failing_element 122 2
     [[[1, 0], [0, 1]], [[0, 0], [0, 0]], [[2, 1], [1, 2]]] 1
     (by decide) (by decide) (by with_unfolding_all decide) (by with_unfolding_all decide)⟩

/-- C9: Factoring the 3-by-3 example matrix of the sample program via the
LU execute routine returns SUCCESS with devInfo 0 and pivot sequence
[1, 2, 3]; applying that pivot sequence to the product of the
unit-lower-triangular and upper-triangular in-place factors reproduces
the original matrix exactly (hence within any floating-point tolerance). -/
theorem lu_roundtrip_example_matrix :
    (hipsolverDgetrf 3 3 exampleMatrix).1 = Status.SUCCESS ∧
    (hipsolverDgetrf 3 3 exampleMatrix).2.2.2 = 0 ∧
    (hipsolverDgetrf 3 3 exampleMatrix).2.2.1 = [1, 2, 3] ∧
    applyIpiv (hipsolverDgetrf 3 3 exampleMatrix).2.2.1
      (matMul 3 3 3
        (lowerFactor 3 (hipsolverDgetrf 3 3 exampleMatrix).2.1)
        (upperFactor 3 3 (hipsolverDgetrf 3 3 exampleMatrix).2.1))
      = exampleMatrix := by
  with_unfolding_all decide

end Hipsolver
